import Mathlib

/-!
Shallow embedding of the slips fulfillment routes of the inventory backend
(`routes/slips.js`), together with the items route data it depends on.
JavaScript numbers that the routes only add, subtract, multiply and compare
are modelled as `Int`; `undefined` request fields as `Option`; JS `a || b`
truthiness (`0` and `""` are falsy) as explicit helper functions; the
MongoDB case-insensitive `$regex` lookup on name/SKU as case-insensitive
substring occurrence (the patterns in play carry no metacharacters); and a
MongoDB session transaction as a function from the store state to either an
error (the transaction aborted or returned early before any write, leaving
the store untouched) or the new store state.
-/

namespace InventorySystem

/-- Inventory item (items collection): the fields the slips routes read or
write. -/
structure Item where
  id : Nat
  name : String
  sku : String
  quantity : Int
  isActive : Bool
  deriving Repr, DecidableEq

/-- Priced line stored on a slip, as built by the POST/PUT processing. -/
structure ProductLine where
  productName : String
  productType : String
  coverType : String
  quantity : Int
  basePrice : Int
  unitPrice : Int
  discountAmount : Int
  discountType : String
  totalPrice : Int
  deriving Repr, DecidableEq

/-- Request line as sent by the client; absent JSON fields are `none`. -/
structure InputLine where
  productName : Option String
  itemName : Option String
  quantity : Int
  basePrice : Option Int
  unitPrice : Option Int
  price : Option Int
  coverType : Option String
  productType : Option String
  deriving Repr, DecidableEq

/-- Sale record (slips collection): the fields the routes read or write. -/
structure Slip where
  id : Nat
  slipNumber : Nat
  customerName : String
  products : List ProductLine
  subtotal : Int
  totalAmount : Int
  status : String
  cancelledAt : Bool
  deriving Repr, DecidableEq

/-- Income ledger entry mirroring a slip. -/
structure Income where
  slipId : Option Nat
  slipNumber : Option Nat
  totalIncome : Int
  productsSold : List ProductLine
  isActive : Bool
  deriving Repr, DecidableEq

/-- The transactional store state the slips routes touch. -/
structure DB where
  items : List Item
  slips : List Slip
  incomes : List Income
  deriving Repr, DecidableEq

/-- JS `a || b` on an optional number: `a` when present and truthy
(nonzero), else `b`. -/
def jsOrNum (a : Option Int) (b : Int) : Int :=
  match a with
  | some x => if x = 0 then b else x
  | none => b

/-- JS `a || b` on an optional string: `a` when present and truthy
(nonempty), else `b`. -/
def jsOrStr (a : Option String) (b : String) : String :=
  match a with
  | some s => if s = "" then b else s
  | none => b

/-- Name of a request line: `p.productName || p.itemName`, with
`undefined` modelled as the empty string (both produce a match-everything
regex downstream, exactly as the empty string does here). -/
def nameOf (p : InputLine) : String :=
  jsOrStr p.productName (jsOrStr p.itemName "")

/-- Whether `pat` occurs at the head of `s` (character list form). -/
def leadsWith : List Char → List Char → Bool
  | [], _ => true
  | _ :: _, [] => false
  | a :: as, b :: bs => a == b && leadsWith as bs

/-- Whether `pat` occurs as a contiguous run anywhere in `s`. -/
def occursIn (pat : List Char) : List Char → Bool
  | [] => leadsWith pat []
  | c :: rest => leadsWith pat (c :: rest) || occursIn pat rest

/-- Lower-cased character list of a string. -/
def lowerChars (s : String) : List Char :=
  s.data.map Char.toLower

/-- Semantics of a case-insensitive regex test of `pat` against `s` for
the metacharacter-free patterns in play: case-insensitive substring
occurrence. -/
def regexTest (pat s : String) : Bool :=
  occursIn (lowerChars pat) (lowerChars s)

/-- The `$or` name/SKU match used by every `Item.findOne` in the slips
routes. -/
def itemMatches (pat : String) (it : Item) : Bool :=
  regexTest pat it.name || regexTest pat it.sku

/-- Semantics of the `Item.findOne` lookup with the name-or-SKU regex
filter restricted to active items: the first active item matching the
pattern, in store order. -/
def resolveItem (items : List Item) (pat : String) : Option Item :=
  items.find? (fun it => it.isActive && itemMatches pat it)

/-- Semantics of `Item.findByIdAndUpdate` with a quantity increment. -/
def incItemQty (items : List Item) (itemId : Nat) (delta : Int) : List Item :=
  items.map (fun it =>
    if it.id = itemId then { it with quantity := it.quantity + delta } else it)

/-- Cover types eligible for the bulk discount. -/
def bulkDiscountTypes : List String :=
  ["Aster Cover", "Without Aster Cover", "Calendar Cover"]

/-- The `calculateBulkDiscount` helper of the POST and PUT slips
handlers: flat 10 currency units per unit for listed cover types at
quantity ≥ 10. -/
def calculateBulkDiscount (coverType : String) (quantity : Int)
    (_basePrice : Int) : Int :=
  if coverType ∈ bulkDiscountTypes ∧ 10 ≤ quantity then 10 else 0

/-- Base price of a line: `p.basePrice || p.unitPrice || p.price || 0`. -/
def basePriceOf (p : InputLine) : Int :=
  jsOrNum p.basePrice (jsOrNum p.unitPrice (jsOrNum p.price 0))

/-- Per-unit bulk discount the processing applies to a line before any
manual override: fires only when the (defaulted) product type is `Cover`
and a truthy cover type is given. -/
def applicableBulk (p : InputLine) : Int :=
  if jsOrStr p.productType "Cover" = "Cover" ∧ jsOrStr p.coverType "" ≠ "" then
    calculateBulkDiscount (jsOrStr p.coverType "") p.quantity (basePriceOf p)
  else 0

/-- The per-line pricing body of `products.map(...)` in the POST handler
(the PUT handler repeats the same computation). -/
def processLine (p : InputLine) : ProductLine :=
  let productName := nameOf p
  let quantity := p.quantity
  let basePrice := basePriceOf p
  let coverType := jsOrStr p.coverType ""
  let productType := jsOrStr p.productType "Cover"
  let d0 : Int × String :=
    if productType = "Cover" ∧ coverType ≠ "" then
      let bulk := calculateBulkDiscount coverType quantity basePrice
      if 0 < bulk then (bulk, "bulk") else (0, "none")
    else (0, "none")
  let finalUnitPrice : Int :=
    match p.unitPrice with
    | some u => u
    | none => basePrice - d0.1
  let d1 : Int × String :=
    match p.unitPrice with
    | some u => if u ≠ basePrice - d0.1 then (basePrice - finalUnitPrice, "manual") else d0
    | none => d0
  { productName := productName
    productType := productType
    coverType := coverType
    quantity := quantity
    basePrice := basePrice
    unitPrice := finalUnitPrice
    discountAmount := d1.1 * quantity
    discountType := d1.2
    totalPrice := quantity * finalUnitPrice }

/-- Structured error results of the slips handlers (the 400/404 early
returns and aborts; every one happens before any write on its path). -/
inductive SlipError where
  | emptyProducts
  | missingTotals
  | slipNotFound
  | invalidProduct
  | notFound (productName : String)
  | insufficientStock (productName : String) (available : Int)
  deriving Repr, DecidableEq

/-- Request body of `POST /api/slips` (fields the handler reads). -/
structure CreateReq where
  customerName : Option String
  subtotal : Option Int
  totalAmount : Option Int
  products : List InputLine
  deriving Repr, DecidableEq

/-- The resolve-and-check loop of the POST handler: resolves every line
against the (unchanged, since no write has happened yet) items collection,
checks stock per line, and accumulates `productUpdates` pairs
`(itemId, quantity)`. -/
def resolveAll (items : List Item) : List InputLine → Except SlipError (List (Nat × Int))
  | [] => .ok []
  | p :: ps =>
    let productName := nameOf p
    match resolveItem items productName with
    | none => .error (.notFound productName)
    | some it =>
      if it.quantity < p.quantity then
        .error (.insufficientStock productName it.quantity)
      else
        match resolveAll items ps with
        | .error e => .error e
        | .ok ups => .ok ((it.id, p.quantity) :: ups)

/-- The reduce-stock loop: one `$inc {quantity: -q}` per accumulated
update. -/
def applyDecrements (items : List Item) (ups : List (Nat × Int)) : List Item :=
  ups.foldl (fun acc u => incItemQty acc u.1 (-u.2)) items

/-- The `POST /api/slips` handler: validate, resolve and check all lines, price the
lines, decrement stock, insert the slip and its mirrored income entry.
An `.error` result models a 400 early return or transaction abort; on
every such path no write has been applied, so the store is untouched. -/
def createSlip (db : DB) (req : CreateReq) (newId newSlipNumber : Nat) :
    Except SlipError (DB × Slip) :=
  if req.products.isEmpty then .error .emptyProducts
  else if req.subtotal.isNone ∨ req.totalAmount.isNone then .error .missingTotals
  else
    match resolveAll db.items req.products with
    | .error e => .error e
    | .ok ups =>
      let processed := req.products.map processLine
      let slip : Slip :=
        { id := newId
          slipNumber := newSlipNumber
          customerName := jsOrStr req.customerName "Walk-in Customer"
          products := processed
          subtotal := req.subtotal.getD 0
          totalAmount := req.totalAmount.getD 0
          status := "Paid"
          cancelledAt := false }
      let income : Income :=
        { slipId := some newId
          slipNumber := some newSlipNumber
          totalIncome := req.totalAmount.getD 0
          productsSold := processed
          isActive := true }
      .ok ({ items := applyDecrements db.items ups
             slips := db.slips ++ [slip]
             incomes := db.incomes ++ [income] }, slip)

/-- Request body of `PUT /api/slips/:id` (fields the handler reads that
this embedding tracks). -/
structure EditReq where
  customerName : Option String
  subtotal : Option Int
  totalAmount : Option Int
  products : Option (List InputLine)
  status : Option String
  deriving Repr, DecidableEq

/-- A restore loop of the PUT handler: for each stored line, look up the
first matching active item in the current store state and `$inc` its
quantity back (skipping lines whose lookup finds nothing). -/
def restoreOld (items : List Item) : List ProductLine → List Item
  | [] => items
  | op :: rest =>
    let items1 :=
      match resolveItem items op.productName with
      | some it => incItemQty items it.id op.quantity
      | none => items
    restoreOld items1 rest

/-- The validate-and-check loop of the PUT products branch: per new line,
reject falsy/non-positive data, resolve against the post-restore items
(unchanged during this loop, since the decrements run afterwards), check
stock, and accumulate `(itemId, quantity)` updates. -/
def validateNew (items : List Item) : List InputLine → Except SlipError (List (Nat × Int))
  | [] => .ok []
  | p :: ps =>
    let productName := nameOf p
    if productName = "" ∨ p.quantity ≤ 0 then .error .invalidProduct
    else
      match resolveItem items productName with
      | none => .error (.notFound productName)
      | some it =>
        if it.quantity < p.quantity then
          .error (.insufficientStock productName it.quantity)
        else
          match validateNew items ps with
          | .error e => .error e
          | .ok ups => .ok ((it.id, p.quantity) :: ups)

/-- The `$or: [{slipId}, {slipNumber}]` filter of both `Income.updateMany`
calls in the PUT handler. -/
def incomeLinked (inc : Income) (sid snum : Nat) : Bool :=
  inc.slipId == some sid || inc.slipNumber == some snum

/-- The `Income.updateMany` call of the cancellation branch: every still
active linked entry is marked inactive. -/
def deactivateIncomes (incomes : List Income) (sid snum : Nat) : List Income :=
  incomes.map (fun inc =>
    if incomeLinked inc sid snum && inc.isActive then
      { inc with isActive := false }
    else inc)

/-- The `Income.updateMany` call of the products-changed branch: rewrite
the active linked entries with the new totals and lines. -/
def rewriteIncomes (incomes : List Income) (sid snum : Nat) (newTotal : Int)
    (newLines : List ProductLine) : List Income :=
  incomes.map (fun inc =>
    if incomeLinked inc sid snum && inc.isActive then
      { inc with totalIncome := newTotal, productsSold := newLines }
    else inc)

/-- The `PUT /api/slips/:id` handler: optional full-replace of products (restore old
quantities, then validate and reserve the new ones), partial field update,
idempotent-guarded cancellation branch (stamp `cancelledAt`, deactivate
linked incomes, restore old line quantities), and income rewrite when
products changed without cancelling. An `.error` models a 404/400 early
return or abort; all such paths abort the transaction, leaving the store
untouched. -/
def editSlip (db : DB) (slipId : Nat) (req : EditReq) :
    Except SlipError (DB × Slip) :=
  match db.slips.find? (fun s => s.id == slipId) with
  | none => .error .slipNotFound
  | some existingSlip =>
    let step1 : Except SlipError (List Item) :=
      match req.products with
      | none => .ok db.items
      | some ps =>
        let restored := restoreOld db.items existingSlip.products
        match validateNew restored ps with
        | .error e => .error e
        | .ok ups => .ok (applyDecrements restored ups)
    match step1 with
    | .error e => .error e
    | .ok items1 =>
      let newProducts : Option (List ProductLine) :=
        req.products.map (List.map processLine)
      let cancelNow : Bool :=
        req.status == some "Cancelled" && !existingSlip.cancelledAt
      let incomes1 :=
        if cancelNow then
          deactivateIncomes db.incomes existingSlip.id existingSlip.slipNumber
        else db.incomes
      let items2 :=
        if cancelNow then restoreOld items1 existingSlip.products else items1
      let updated : Slip :=
        { existingSlip with
          customerName := req.customerName.getD existingSlip.customerName
          subtotal := req.subtotal.getD existingSlip.subtotal
          totalAmount := req.totalAmount.getD existingSlip.totalAmount
          status := req.status.getD existingSlip.status
          products := newProducts.getD existingSlip.products
          cancelledAt := existingSlip.cancelledAt || cancelNow }
      let incomes2 :=
        if req.products.isSome && !(req.status == some "Cancelled") then
          rewriteIncomes incomes1 existingSlip.id existingSlip.slipNumber
            (jsOrNum req.totalAmount updated.totalAmount)
            (newProducts.getD existingSlip.products)
        else incomes1
      .ok ({ items := items2
             slips := db.slips.map (fun s => if s.id == slipId then updated else s)
             incomes := incomes2 }, updated)

/-- The `DELETE /api/slips/:id` handler, a `Slip.findByIdAndDelete` — removes the slip
document (whatever its status) and touches nothing else; `none` models the
404 when no slip has the id. -/
def deleteSlip (db : DB) (slipId : Nat) : Option (DB × Slip) :=
  match db.slips.find? (fun s => s.id == slipId) with
  | none => none
  | some s =>
    some ({ db with slips := db.slips.filter (fun t => !(t.id == slipId)) }, s)

/-!
Spec-side characterizations: the inventory loops viewed as per-id quantity
shifts, with the total added or removed per item id made explicit.
-/

/-- Quantity-shift view of an items list: every item's quantity moves by a
per-id delta; name, SKU, id and active flag stay put. -/
def shiftQty (f : Nat → Int) (items : List Item) : List Item :=
  items.map (fun it => { it with quantity := it.quantity + f it.id })

/-- Total quantity a restore loop adds to the item with id `i`: the sum of
the quantities of the stored lines whose lookup (in `items`) resolves to
that id. -/
def restoreSum (items : List Item) : List ProductLine → Nat → Int
  | [], _ => 0
  | op :: rest, i =>
    (match resolveItem items op.productName with
     | some it => if it.id = i then op.quantity else 0
     | none => 0) + restoreSum items rest i

/-- Total quantity the decrement loop removes from the item with id `i`. -/
def decSum : List (Nat × Int) → Nat → Int
  | [], _ => 0
  | u :: us, i => (if u.1 = i then u.2 else 0) + decSum us i

/-- Line of the C6 example: cover type Aster Cover, quantity 10, base
price 100, no supplied unit price. -/
def c6line10 : InputLine :=
  { productName := some "aster xl"
    itemName := none
    quantity := 10
    basePrice := some 100
    unitPrice := none
    price := none
    coverType := some "Aster Cover"
    productType := none }

/-- The same line at quantity 9. -/
def c6line9 : InputLine := { c6line10 with quantity := 9 }

/-- Line of the C7 example: the C6 bulk-eligible line with a supplied unit
price of 95. -/
def c7line : InputLine := { c6line10 with unitPrice := some 95 }

/-- Line with an explicit zero base price and a legacy price field. -/
def c8line : InputLine :=
  { productName := some "x"
    itemName := none
    quantity := 2
    basePrice := some 0
    unitPrice := none
    price := some 50
    coverType := none
    productType := none }

/-- Line with an explicit nonzero base price of 80 and quantity 3. -/
def c8wit : InputLine :=
  { productName := some "x"
    itemName := none
    quantity := 3
    basePrice := some 80
    unitPrice := none
    price := none
    coverType := none
    productType := none }

/-- Item with stock 3 for the C2 example. -/
def c2item : Item :=
  { id := 1, name := "cover a", sku := "ca", quantity := 3, isActive := true }

/-- Request line asking for quantity 5 of that item. -/
def c2line : InputLine :=
  { productName := some "cover a"
    itemName := none
    quantity := 5
    basePrice := some 100
    unitPrice := none
    price := none
    coverType := none
    productType := none }

def c2db : DB := { items := [c2item], slips := [], incomes := [] }

def c2req : CreateReq :=
  { customerName := none
    subtotal := some 500
    totalAmount := some 500
    products := [c2line] }

/-- Two request lines that both resolve (by the fuzzy name match) to the
same stock-3 item, each asking for 2. -/
def c1line : InputLine :=
  { productName := some "cover a"
    itemName := none
    quantity := 2
    basePrice := some 100
    unitPrice := none
    price := none
    coverType := none
    productType := none }

def c1db : DB :=
  { items := [{ id := 1, name := "cover a", sku := "ca", quantity := 3, isActive := true }]
    slips := []
    incomes := [] }

def c1req : CreateReq :=
  { customerName := none
    subtotal := some 400
    totalAmount := some 400
    products := [c1line, c1line] }

def c1witem : Item :=
  { id := 1, name := "cover a", sku := "ca", quantity := 5, isActive := true }

def c1wline : InputLine :=
  { productName := some "cover a"
    itemName := none
    quantity := 2
    basePrice := some 100
    unitPrice := none
    price := none
    coverType := none
    productType := none }

def c1wdb : DB := { items := [c1witem], slips := [], incomes := [] }

def c1wreq : CreateReq :=
  { customerName := none
    subtotal := some 200
    totalAmount := some 200
    products := [c1wline] }

/-- The priced line the create stores for `c1wline`. -/
def c1wproc : ProductLine :=
  { productName := "cover a"
    productType := "Cover"
    coverType := ""
    quantity := 2
    basePrice := 100
    unitPrice := 100
    discountAmount := 0
    discountType := "none"
    totalPrice := 200 }

def c1wslip : Slip :=
  { id := 7
    slipNumber := 7
    customerName := "Walk-in Customer"
    products := [c1wproc]
    subtotal := 200
    totalAmount := 200
    status := "Paid"
    cancelledAt := false }

def c1wafter : DB :=
  { items := [{ id := 1, name := "cover a", sku := "ca", quantity := 3, isActive := true }]
    slips := [c1wslip]
    incomes := [{ slipId := some 7, slipNumber := some 7, totalIncome := 200,
                  productsSold := [c1wproc], isActive := true }] }

/-- Shared cancellation-witness scenario: one item at stock 10, one paid
slip over 2 units of it, its linked income entry, and one unrelated
income entry. -/
def wItem : Item :=
  { id := 1, name := "cover a", sku := "ca", quantity := 10, isActive := true }

def wLine : ProductLine :=
  { productName := "cover a"
    productType := "Cover"
    coverType := ""
    quantity := 2
    basePrice := 100
    unitPrice := 100
    discountAmount := 0
    discountType := "none"
    totalPrice := 200 }

def wSlip : Slip :=
  { id := 5
    slipNumber := 5
    customerName := "c"
    products := [wLine]
    subtotal := 200
    totalAmount := 200
    status := "Paid"
    cancelledAt := false }

def wInc : Income :=
  { slipId := some 5, slipNumber := some 5, totalIncome := 200
    productsSold := [wLine], isActive := true }

def wOther : Income :=
  { slipId := some 9, slipNumber := some 9, totalIncome := 50
    productsSold := [], isActive := true }

def wDb : DB := { items := [wItem], slips := [wSlip], incomes := [wInc, wOther] }

def wCancelReq : EditReq :=
  { customerName := none, subtotal := none, totalAmount := none
    products := none, status := some "Cancelled" }

/-- The `wDb` scenario after cancellation: stock restored to 12, linked
income deactivated, slip marked cancelled. -/
def wDb4 : DB :=
  { items := [{ wItem with quantity := 12 }]
    slips := [{ wSlip with status := "Cancelled", cancelledAt := true }]
    incomes := [{ wInc with isActive := false }, wOther] }

/-- Request resubmitting the same single line (name and quantity) as the
stored slip. -/
def c5newline : InputLine :=
  { productName := some "cover a"
    itemName := none
    quantity := 2
    basePrice := some 100
    unitPrice := none
    price := none
    coverType := none
    productType := none }

def c5req : EditReq :=
  { customerName := none, subtotal := none, totalAmount := none
    products := some [c5newline], status := none }

/-- New single line at quantity 1 against the stored quantity-2 slip. -/
def c9newline : InputLine :=
  { productName := some "cover a"
    itemName := none
    quantity := 1
    basePrice := some 100
    unitPrice := none
    price := none
    coverType := none
    productType := none }

/-- Edit that both replaces the products and cancels, in one request. -/
def c9reqBoth : EditReq :=
  { customerName := none, subtotal := none, totalAmount := none
    products := some [c9newline], status := some "Cancelled" }

/-- A cancelled-status slip alongside its (still active) income entry, to
show DELETE bypasses the compensating logic for any status. -/
def c10slip : Slip := { wSlip with status := "Cancelled" }

def c10db : DB := { items := [wItem], slips := [c10slip], incomes := [wInc, wOther] }

@[simp] theorem qtyUpdate_id (it : Item) (q : Int) :
    ({ it with quantity := q } : Item).id = it.id := rfl

@[simp] theorem qtyUpdate_name (it : Item) (q : Int) :
    ({ it with quantity := q } : Item).name = it.name := rfl

@[simp] theorem qtyUpdate_sku (it : Item) (q : Int) :
    ({ it with quantity := q } : Item).sku = it.sku := rfl

@[simp] theorem qtyUpdate_isActive (it : Item) (q : Int) :
    ({ it with quantity := q } : Item).isActive = it.isActive := rfl

@[simp] theorem qtyUpdate_quantity (it : Item) (q : Int) :
    ({ it with quantity := q } : Item).quantity = q := rfl

theorem qtyUpdate_self (it : Item) : ({ it with quantity := it.quantity } : Item) = it := rfl

theorem shiftQty_congr {f g : Nat → Int} (h : ∀ i, f i = g i)
    (items : List Item) : shiftQty f items = shiftQty g items := by
  unfold shiftQty
  congr 1
  funext it
  rw [h]

theorem shiftQty_zero (items : List Item) : shiftQty (fun _ => 0) items = items := by
  unfold shiftQty
  conv_rhs => rw [← List.map_id items]
  congr 1
  funext it
  rw [add_zero]
  rfl

theorem shiftQty_comp (f g : Nat → Int) (items : List Item) :
    shiftQty g (shiftQty f items) = shiftQty (fun i => f i + g i) items := by
  unfold shiftQty
  rw [List.map_map]
  congr 1
  funext it
  simp [add_assoc]

theorem incItemQty_eq_shiftQty (items : List Item) (itemId : Nat) (d : Int) :
    incItemQty items itemId d =
      shiftQty (fun i => if i = itemId then d else 0) items := by
  unfold incItemQty shiftQty
  congr 1
  funext it
  by_cases h : it.id = itemId
  · simp [h]
  · simp [h]

theorem resolveItem_shiftQty (f : Nat → Int) (items : List Item) (pat : String) :
    resolveItem (shiftQty f items) pat =
      (resolveItem items pat).map
        (fun it => { it with quantity := it.quantity + f it.id }) := by
  unfold resolveItem shiftQty
  rw [List.find?_map]
  rfl

theorem restoreSum_shiftQty (f : Nat → Int) (items : List Item)
    (olds : List ProductLine) (i : Nat) :
    restoreSum (shiftQty f items) olds i = restoreSum items olds i := by
  induction olds with
  | nil => rfl
  | cons op rest ih =>
    simp only [restoreSum, resolveItem_shiftQty, ih]
    cases h : resolveItem items op.productName <;> simp

theorem applyDecrements_shiftQty (ups : List (Nat × Int)) :
    ∀ (f : Nat → Int) (items : List Item),
      applyDecrements (shiftQty f items) ups =
        shiftQty (fun i => f i - decSum ups i) items := by
  induction ups with
  | nil =>
    intro f items
    exact shiftQty_congr (fun i => by simp [decSum]) items
  | cons u us ih =>
    intro f items
    have h1 : applyDecrements (shiftQty f items) (u :: us) =
        applyDecrements (incItemQty (shiftQty f items) u.1 (-u.2)) us := rfl
    rw [h1, incItemQty_eq_shiftQty, shiftQty_comp, ih]
    apply shiftQty_congr
    intro i
    simp only [decSum]
    by_cases h : i = u.1
    · subst h
      simp
      ring
    · rw [if_neg h, if_neg (fun h2 => h h2.symm)]
      ring

theorem applyDecrements_eq (items : List Item) (ups : List (Nat × Int)) :
    applyDecrements items ups = shiftQty (fun i => -decSum ups i) items := by
  conv_lhs => rw [← shiftQty_zero items]
  rw [applyDecrements_shiftQty]
  exact shiftQty_congr (fun i => by ring) items

theorem restoreOld_shiftQty (olds : List ProductLine) :
    ∀ (f : Nat → Int) (items : List Item),
      restoreOld (shiftQty f items) olds =
        shiftQty (fun i => f i + restoreSum items olds i) items := by
  induction olds with
  | nil =>
    intro f items
    exact shiftQty_congr (fun i => by simp [restoreSum]) items
  | cons op rest ih =>
    intro f items
    simp only [restoreOld, resolveItem_shiftQty]
    cases h : resolveItem items op.productName with
    | none =>
      simp only [Option.map_none']
      rw [ih]
      apply shiftQty_congr
      intro i
      simp [restoreSum, h]
    | some it =>
      simp only [Option.map_some', qtyUpdate_id]
      rw [incItemQty_eq_shiftQty, shiftQty_comp, ih]
      apply shiftQty_congr
      intro i
      simp only [restoreSum, h]
      by_cases hi : i = it.id
      · subst hi
        simp
        ring
      · rw [if_neg hi, if_neg (fun h2 => hi h2.symm)]
        ring

theorem restoreOld_eq (items : List Item) (olds : List ProductLine) :
    restoreOld items olds = shiftQty (restoreSum items olds) items := by
  conv_lhs => rw [← shiftQty_zero items]
  rw [restoreOld_shiftQty]
  exact shiftQty_congr (fun i => by ring) items

theorem decSum_eq_zero {ups : List (Nat × Int)} {i : Nat}
    (h : i ∉ ups.map Prod.fst) : decSum ups i = 0 := by
  induction ups with
  | nil => rfl
  | cons u us ih =>
    simp only [List.map_cons, List.mem_cons] at h
    push_neg at h
    have hne : ¬ (u.1 = i) := fun h2 => h.1 h2.symm
    simp only [decSum, if_neg hne, ih h.2, add_zero]

theorem decSum_eq_of_nodup {ups : List (Nat × Int)}
    (hnd : (ups.map Prod.fst).Nodup) {i : Nat} {q : Int}
    (hm : (i, q) ∈ ups) : decSum ups i = q := by
  induction ups with
  | nil => cases hm
  | cons u us ih =>
    simp only [List.map_cons, List.nodup_cons] at hnd
    rcases List.mem_cons.mp hm with h | h
    · subst h
      simp [decSum, decSum_eq_zero hnd.1]
    · have h1 : u.1 ≠ i := by
        intro he
        exact hnd.1 (he ▸ (List.mem_map_of_mem Prod.fst h))
      simp only [decSum, if_neg h1, ih hnd.2 h, zero_add]

theorem resolveItem_mem {items : List Item} {pat : String} {it : Item}
    (h : resolveItem items pat = some it) :
    it ∈ items ∧ it.isActive = true := by
  unfold resolveItem at h
  refine ⟨List.mem_of_find?_eq_some h, ?_⟩
  have h2 := List.find?_some h
  exact (Bool.and_eq_true_iff.mp h2).1

theorem resolveAll_ok_mem {items : List Item} {ps : List InputLine}
    {ups : List (Nat × Int)} (h : resolveAll items ps = .ok ups) :
    ∀ u ∈ ups, ∃ p ∈ ps, ∃ it, resolveItem items (nameOf p) = some it ∧
      it.id = u.1 ∧ u.2 = p.quantity ∧ p.quantity ≤ it.quantity := by
  induction ps generalizing ups with
  | nil =>
    simp only [resolveAll] at h
    injection h with h
    subst h
    intro u hu
    cases hu
  | cons p ps ih =>
    simp only [resolveAll] at h
    split at h
    · cases h
    next it hres =>
      split at h
      · cases h
      next hlt =>
        split at h
        · cases h
        next ups2 hrest =>
          injection h with h
          subst h
          intro u hu
          rcases List.mem_cons.mp hu with h1 | h1
          · subst h1
            exact ⟨p, List.mem_cons_self p ps, it, hres, rfl, rfl, le_of_not_lt hlt⟩
          · obtain ⟨p1, hp1, it1, h2⟩ := ih hrest u h1
            exact ⟨p1, List.mem_cons_of_mem _ hp1, it1, h2⟩

theorem resolveAll_insufficient {items : List Item} {ps : List InputLine}
    (hall : ∀ p ∈ ps, ∃ it, resolveItem items (nameOf p) = some it)
    (hbad : ∃ p ∈ ps, ∃ it, resolveItem items (nameOf p) = some it ∧
      it.quantity < p.quantity) :
    ∃ p ∈ ps, ∃ it, resolveItem items (nameOf p) = some it ∧
      it.quantity < p.quantity ∧
      resolveAll items ps = .error (.insufficientStock (nameOf p) it.quantity) := by
  induction ps with
  | nil =>
    obtain ⟨p, hp, _⟩ := hbad
    cases hp
  | cons p ps ih =>
    obtain ⟨it, hit⟩ := hall p (List.mem_cons_self p ps)
    by_cases hlt : it.quantity < p.quantity
    · refine ⟨p, List.mem_cons_self p ps, it, hit, hlt, ?_⟩
      simp only [resolveAll, hit, if_pos hlt]
    · have hbad2 : ∃ p0 ∈ ps, ∃ it0,
          resolveItem items (nameOf p0) = some it0 ∧ it0.quantity < p0.quantity := by
        obtain ⟨p0, hp0, it0, h1, h2⟩ := hbad
        rcases List.mem_cons.mp hp0 with he | he
        · subst he
          rw [hit] at h1
          injection h1 with h1
          subst h1
          exact absurd h2 hlt
        · exact ⟨p0, he, it0, h1, h2⟩
      have hall2 : ∀ p0 ∈ ps, ∃ it0, resolveItem items (nameOf p0) = some it0 :=
        fun p0 hp0 => hall p0 (List.mem_cons_of_mem _ hp0)
      obtain ⟨p1, hp1, it1, h1, h2, h3⟩ := ih hall2 hbad2
      refine ⟨p1, List.mem_cons_of_mem _ hp1, it1, h1, h2, ?_⟩
      simp only [resolveAll, hit, if_neg hlt, h3]

theorem mem_bulkDiscountTypes_ne_empty {s : String}
    (h : s ∈ bulkDiscountTypes) : s ≠ "" := by
  simp only [bulkDiscountTypes, List.mem_cons, List.not_mem_nil, or_false] at h
  rcases h with rfl | rfl | rfl <;> decide

theorem applicableBulk_pos (p : InputLine)
    (h1 : jsOrStr p.productType "Cover" = "Cover")
    (h2 : jsOrStr p.coverType "" ∈ bulkDiscountTypes)
    (h3 : 10 ≤ p.quantity) : applicableBulk p = 10 := by
  have hne : jsOrStr p.coverType "" ≠ "" := mem_bulkDiscountTypes_ne_empty h2
  simp only [applicableBulk, calculateBulkDiscount,
    if_pos (And.intro h1 hne), if_pos (And.intro h2 h3)]

theorem applicableBulk_zero (p : InputLine)
    (h : ¬(jsOrStr p.productType "Cover" = "Cover" ∧
           jsOrStr p.coverType "" ∈ bulkDiscountTypes ∧ 10 ≤ p.quantity)) :
    applicableBulk p = 0 := by
  unfold applicableBulk calculateBulkDiscount
  by_cases h1 : jsOrStr p.productType "Cover" = "Cover" ∧ jsOrStr p.coverType "" ≠ ""
  · rw [if_pos h1]
    rw [if_neg ?hc]
    case hc =>
      intro hc
      exact h ⟨h1.1, hc.1, hc.2⟩
  · rw [if_neg h1]

theorem processLine_eq_none (p : InputLine) (h : p.unitPrice = none) :
    processLine p =
      { productName := nameOf p
        productType := jsOrStr p.productType "Cover"
        coverType := jsOrStr p.coverType ""
        quantity := p.quantity
        basePrice := basePriceOf p
        unitPrice := basePriceOf p - applicableBulk p
        discountAmount := applicableBulk p * p.quantity
        discountType := if 0 < applicableBulk p then "bulk" else "none"
        totalPrice := p.quantity * (basePriceOf p - applicableBulk p) } := by
  by_cases h1 : jsOrStr p.productType "Cover" = "Cover"
  · by_cases h2 : jsOrStr p.coverType "" = ""
    · simp [processLine, applicableBulk, calculateBulkDiscount, h, h1, h2]
    · by_cases h3 : jsOrStr p.coverType "" ∈ bulkDiscountTypes
      · by_cases h4 : (10:Int) ≤ p.quantity
        · norm_num [processLine, applicableBulk, calculateBulkDiscount, h, h1, h2, h3, h4]
        · norm_num [processLine, applicableBulk, calculateBulkDiscount, h, h1, h2, h3, h4]
      · norm_num [processLine, applicableBulk, calculateBulkDiscount, h, h1, h2, h3]
  · simp [processLine, applicableBulk, calculateBulkDiscount, h, h1]

theorem processLine_eq_some (p : InputLine) (u : Int) (h : p.unitPrice = some u) :
    processLine p =
      { productName := nameOf p
        productType := jsOrStr p.productType "Cover"
        coverType := jsOrStr p.coverType ""
        quantity := p.quantity
        basePrice := basePriceOf p
        unitPrice := u
        discountAmount :=
          (if u = basePriceOf p - applicableBulk p then applicableBulk p
           else basePriceOf p - u) * p.quantity
        discountType :=
          if u = basePriceOf p - applicableBulk p then
            (if 0 < applicableBulk p then "bulk" else "none")
          else "manual"
        totalPrice := p.quantity * u } := by
  by_cases h1 : jsOrStr p.productType "Cover" = "Cover"
  · by_cases h2 : jsOrStr p.coverType "" = ""
    · by_cases h5 : u = basePriceOf p
      · simp [processLine, applicableBulk, calculateBulkDiscount, h, h1, h2, h5]
      · simp [processLine, applicableBulk, calculateBulkDiscount, h, h1, h2, h5]
    · by_cases h3 : jsOrStr p.coverType "" ∈ bulkDiscountTypes
      · by_cases h4 : (10:Int) ≤ p.quantity
        · by_cases h5 : u = basePriceOf p - 10
          · norm_num [processLine, applicableBulk, calculateBulkDiscount, h, h1, h2, h3, h4, h5]
          · norm_num [processLine, applicableBulk, calculateBulkDiscount, h, h1, h2, h3, h4, h5]
        · by_cases h5 : u = basePriceOf p
          · norm_num [processLine, applicableBulk, calculateBulkDiscount, h, h1, h2, h3, h4, h5]
          · norm_num [processLine, applicableBulk, calculateBulkDiscount, h, h1, h2, h3, h4, h5]
      · by_cases h5 : u = basePriceOf p
        · norm_num [processLine, applicableBulk, calculateBulkDiscount, h, h1, h2, h3, h5]
        · norm_num [processLine, applicableBulk, calculateBulkDiscount, h, h1, h2, h3, h5]
  · by_cases h5 : u = basePriceOf p
    · simp [processLine, applicableBulk, calculateBulkDiscount, h, h1, h5]
    · simp [processLine, applicableBulk, calculateBulkDiscount, h, h1, h5]

theorem processLine_basePrice (p : InputLine) :
    (processLine p).basePrice = basePriceOf p := rfl

/-- C6: with no supplied unit price, the flat 10-per-unit bulk discount
applies exactly when the line's (defaulted) product type is `Cover`, its
cover sub-type is on the fixed allow-list and quantity ≥ 10: then the unit
price is basePrice − 10, the stored discount is 10 × quantity and the line
is classified `bulk`; in every other case there is no discount and the
line is classified `none`. -/
theorem C6_bulk_discount (p : InputLine) (hu : p.unitPrice = none) :
    ((jsOrStr p.productType "Cover" = "Cover" ∧
      jsOrStr p.coverType "" ∈ bulkDiscountTypes ∧ 10 ≤ p.quantity) →
      (processLine p).discountType = "bulk" ∧
      (processLine p).unitPrice = basePriceOf p - 10 ∧
      (processLine p).discountAmount = 10 * p.quantity) ∧
    (¬(jsOrStr p.productType "Cover" = "Cover" ∧
       jsOrStr p.coverType "" ∈ bulkDiscountTypes ∧ 10 ≤ p.quantity) →
      (processLine p).discountType = "none" ∧
      (processLine p).unitPrice = basePriceOf p ∧
      (processLine p).discountAmount = 0) := by
  rw [processLine_eq_none p hu]
  constructor
  · rintro ⟨h1, h2, h3⟩
    rw [applicableBulk_pos p h1 h2 h3]
    norm_num
  · intro hne
    rw [applicableBulk_zero p hne]
    norm_num

theorem C6_witness :
    (processLine c6line10).discountType = "bulk" ∧
    (processLine c6line10).unitPrice = 90 ∧
    (processLine c6line10).discountAmount = 100 ∧
    (processLine c6line9).discountType = "none" ∧
    (processLine c6line9).unitPrice = 100 ∧
    (processLine c6line9).discountAmount = 0 := by
  have h10 := (C6_bulk_discount c6line10 rfl).1 (by decide)
  have h9 := (C6_bulk_discount c6line9 rfl).2 (by decide)
  refine ⟨h10.1, ?_, ?_, h9.1, ?_, h9.2.2⟩
  · rw [h10.2.1]
    decide
  · rw [h10.2.2]
    decide
  · rw [h9.2.1]
    decide

/-- C7: a supplied unit price that differs from basePrice minus the
applicable bulk discount wins: it becomes the line's unit price, the line
is reclassified `manual`, and the stored discount is
(basePrice − supplied) × quantity. -/
theorem C7_manual_override (p : InputLine) (u : Int) (hu : p.unitPrice = some u)
    (hne : u ≠ basePriceOf p - applicableBulk p) :
    (processLine p).unitPrice = u ∧
    (processLine p).discountType = "manual" ∧
    (processLine p).discountAmount = (basePriceOf p - u) * p.quantity := by
  rw [processLine_eq_some p u hu]
  simp [hne]

theorem C7_witness :
    (processLine c7line).unitPrice = 95 ∧
    (processLine c7line).discountType = "manual" ∧
    (processLine c7line).discountAmount = 50 := by
  have h := C7_manual_override c7line 95 rfl (by decide)
  refine ⟨h.1, h.2.1, ?_⟩
  rw [h.2.2]
  decide

/-- C8 counterexample: the claim says the explicit line base price is used
even when it is 0, but the code's `p.basePrice || p.unitPrice || p.price
|| 0` chain treats the explicit 0 as falsy and falls through to the legacy
price 50. -/
theorem C8_counterexample :
    c8line.basePrice = some 0 ∧ (processLine c8line).basePrice = 50 ∧
    (50 : Int) ≠ 0 := by
  refine ⟨rfl, ?_, by decide⟩
  decide

/-- C8 as amended: basePrice is the explicit base price when present and
nonzero, else the supplied unit price when present and nonzero, else the
legacy price when present and nonzero, else 0; the stored discountAmount
is the per-unit discount (basePrice − unitPrice) times quantity; and
totalPrice = quantity × unitPrice. -/
theorem C8_line_construction (p : InputLine) :
    (∀ b, p.basePrice = some b → b ≠ 0 → (processLine p).basePrice = b) ∧
    ((p.basePrice = none ∨ p.basePrice = some 0) →
      ∀ u, p.unitPrice = some u → u ≠ 0 → (processLine p).basePrice = u) ∧
    ((p.basePrice = none ∨ p.basePrice = some 0) →
      (p.unitPrice = none ∨ p.unitPrice = some 0) →
      ∀ c, p.price = some c → c ≠ 0 → (processLine p).basePrice = c) ∧
    ((p.basePrice = none ∨ p.basePrice = some 0) →
      (p.unitPrice = none ∨ p.unitPrice = some 0) →
      (p.price = none ∨ p.price = some 0) → (processLine p).basePrice = 0) ∧
    (processLine p).discountAmount =
      ((processLine p).basePrice - (processLine p).unitPrice) * p.quantity ∧
    (processLine p).totalPrice = p.quantity * (processLine p).unitPrice := by
  refine ⟨?_, ?_, ?_, ?_, ?_, rfl⟩
  · intro b hb hb0
    rw [processLine_basePrice]
    simp [basePriceOf, jsOrNum, hb, hb0]
  · rintro (h0 | h0) u huu hu0 <;> rw [processLine_basePrice] <;>
      simp [basePriceOf, jsOrNum, h0, huu, hu0]
  · rintro (h0 | h0) (h1 | h1) c hc hc0 <;> rw [processLine_basePrice] <;>
      simp [basePriceOf, jsOrNum, h0, h1, hc, hc0]
  · rintro (h0 | h0) (h1 | h1) (h2 | h2) <;> rw [processLine_basePrice] <;>
      simp [basePriceOf, jsOrNum, h0, h1, h2]
  · cases huc : p.unitPrice with
    | none =>
      rw [processLine_eq_none p huc]
      dsimp only
      ring
    | some u =>
      rw [processLine_eq_some p u huc]
      dsimp only
      by_cases h5 : u = basePriceOf p - applicableBulk p
      · rw [if_pos h5, h5]
        ring
      · rw [if_neg h5]

theorem C8_witness :
    (processLine c8wit).basePrice = 80 ∧
    (processLine c8wit).totalPrice = 3 * (processLine c8wit).unitPrice := by
  refine ⟨(C8_line_construction c8wit).1 80 rfl (by decide), ?_⟩
  exact (C8_line_construction c8wit).2.2.2.2.2

/-- C2: when every request line resolves to an active item and some line's
requested quantity exceeds its matched item's stock, create fails with an
insufficient-stock error carrying that item's available quantity; the
`.error` result is the handler's early return, which happens before any
write, so no stock changes and no sale record or income entry is created. -/
theorem C2_insufficient_stock (db : DB) (req : CreateReq) (newId snum : Nat)
    (hne : req.products ≠ [])
    (hsb : req.subtotal ≠ none) (hta : req.totalAmount ≠ none)
    (hall : ∀ p ∈ req.products, ∃ it, resolveItem db.items (nameOf p) = some it)
    (hbad : ∃ p ∈ req.products, ∃ it,
        resolveItem db.items (nameOf p) = some it ∧ it.quantity < p.quantity) :
    ∃ p ∈ req.products, ∃ it,
      resolveItem db.items (nameOf p) = some it ∧ it.quantity < p.quantity ∧
      createSlip db req newId snum =
        .error (.insufficientStock (nameOf p) it.quantity) := by
  obtain ⟨p, hp, it, h1, h2, h3⟩ := resolveAll_insufficient hall hbad
  refine ⟨p, hp, it, h1, h2, ?_⟩
  simp [createSlip, hne, hsb, hta, h3]

theorem C2_witness :
    createSlip c2db c2req 7 7 = .error (.insufficientStock "cover a" 3) := by
  obtain ⟨p, hp, it, h1, h2, h3⟩ :=
    C2_insufficient_stock c2db c2req 7 7 (by decide) (by decide) (by decide)
      (by
        intro p hp
        simp only [c2req, List.mem_singleton] at hp
        subst hp
        exact ⟨c2item, rfl⟩)
      ⟨c2line, by decide, c2item, rfl, by decide⟩
  simp only [c2req, List.mem_singleton] at hp
  subst hp
  have h4 : resolveItem c2db.items (nameOf c2line) = some c2item := rfl
  rw [h4] at h1
  injection h1 with h1
  subst h1
  exact h3

/-- Unfolding lemma: a successful create's items are the input items with
the accumulated decrements applied. -/
theorem createSlip_ok_items {db : DB} {req : CreateReq} {newId snum : Nat}
    {db2 : DB} {slip : Slip} {ups : List (Nat × Int)}
    (hok : createSlip db req newId snum = .ok (db2, slip))
    (hres : resolveAll db.items req.products = .ok ups) :
    db2.items = applyDecrements db.items ups := by
  simp only [createSlip] at hok
  split at hok
  · cases hok
  split at hok
  · cases hok
  split at hok
  · cases hok
  next ups2 heq =>
    rw [hres] at heq
    injection heq with heq
    subst heq
    injection hok with hok
    exact (congrArg (fun r => DB.items r.1) hok).symm

/-- C1 as amended: on a successful create, each accumulated reservation
decrements its item by exactly the reserved quantity, and — provided no
two request lines resolve to the same item (and all stocks start
non-negative, with distinct item ids) — no item's quantity is negative
afterwards. Without the distinctness proviso the conclusion fails: each
line's stock check reads pre-decrement stock, so two lines resolving to
the same item can jointly overdraw it (see the counterexample). -/
theorem C1_create_stock (db : DB) (req : CreateReq) (newId snum : Nat)
    (db2 : DB) (slip : Slip) (ups : List (Nat × Int))
    (hok : createSlip db req newId snum = .ok (db2, slip))
    (hres : resolveAll db.items req.products = .ok ups)
    (hids : (db.items.map Item.id).Nodup)
    (hdup : (ups.map Prod.fst).Nodup)
    (hpos : ∀ it ∈ db.items, 0 ≤ it.quantity) :
    (∀ u ∈ ups, ∀ it ∈ db.items, it.id = u.1 →
      ({ it with quantity := it.quantity - u.2 } : Item) ∈ db2.items ∧
      0 ≤ it.quantity - u.2) ∧
    (∀ it2 ∈ db2.items, 0 ≤ it2.quantity) := by
  have hitems : db2.items = applyDecrements db.items ups :=
    createSlip_ok_items hok hres
  rw [applyDecrements_eq] at hitems
  have hmem := resolveAll_ok_mem hres
  have hinj := List.inj_on_of_nodup_map hids
  have key : ∀ u ∈ ups, ∀ it ∈ db.items, it.id = u.1 →
      decSum ups it.id = u.2 ∧ u.2 ≤ it.quantity := by
    intro u hu it hit hid
    have hds : decSum ups it.id = u.2 := by
      rw [hid]
      exact decSum_eq_of_nodup hdup hu
    obtain ⟨p, hp, it0, hres0, hid0, hq0, hle0⟩ := hmem u hu
    have he : it0 = it := hinj (resolveItem_mem hres0).1 hit (by rw [hid0, hid])
    subst he
    rw [← hq0] at hle0
    exact ⟨hds, hle0⟩
  constructor
  · intro u hu it hit hid
    obtain ⟨hds, hle⟩ := key u hu it hit hid
    constructor
    · rw [hitems]
      have hm : ({ it with quantity := it.quantity + -decSum ups it.id } : Item) ∈
          shiftQty (fun i => -decSum ups i) db.items :=
        List.mem_map_of_mem _ hit
      have he : it.quantity - u.2 = it.quantity + -decSum ups it.id := by
        rw [hds]
        ring
      rw [he]
      exact hm
    · omega
  · intro it2 hit2
    rw [hitems] at hit2
    obtain ⟨it, hit, he⟩ := List.mem_map.mp hit2
    subst he
    simp only [qtyUpdate_quantity]
    by_cases hin : it.id ∈ ups.map Prod.fst
    · obtain ⟨u, hu, hu1⟩ := List.mem_map.mp hin
      obtain ⟨hds, hle⟩ := key u hu it hit hu1.symm
      rw [hds]
      omega
    · rw [decSum_eq_zero hin]
      have := hpos it hit
      omega

/-- C1 counterexample: both lines pass their stock check against the same
pre-decrement stock of 3, the create succeeds, and the item ends at −1 —
the claim's "no Item's quantity is ever negative afterwards, including
when two distinct request lines resolve to the same Item" is false. -/
theorem C1_counterexample :
    (createSlip c1db c1req 7 7).toOption.map (fun r => r.1.items.map Item.quantity) =
      some [-1] ∧ (-1 : Int) < 0 := by
  constructor
  · decide
  · decide

theorem C1_witness :
    ({ id := 1, name := "cover a", sku := "ca", quantity := 3, isActive := true } : Item) ∈
      c1wafter.items ∧ (0 : Int) ≤ 3 := by
  have h := C1_create_stock c1wdb c1wreq 7 7 c1wafter c1wslip [(1, 2)]
    rfl rfl (by decide) (by decide) (by decide)
  have h2 := h.1 (1, 2) (by decide) c1witem (by decide) rfl
  exact ⟨h2.1, by decide⟩

theorem none_beq_some_str (s : String) :
    ((none : Option String) == some s) = false := rfl

theorem restoreSum_nonneg {items : List Item} {olds : List ProductLine}
    (hq : ∀ o ∈ olds, 0 ≤ o.quantity) (i : Nat) :
    0 ≤ restoreSum items olds i := by
  induction olds with
  | nil => simp [restoreSum]
  | cons o olds ih =>
    simp only [restoreSum]
    have h1 : 0 ≤ restoreSum items olds i :=
      ih (fun o2 ho2 => hq o2 (List.mem_cons_of_mem _ ho2))
    have h2 : (0 : Int) ≤
        match resolveItem items o.productName with
        | some it => if it.id = i then o.quantity else 0
        | none => 0 := by
      cases resolveItem items o.productName with
      | none => exact le_refl 0
      | some it =>
        by_cases hit : it.id = i
        · simpa [hit] using hq o (List.mem_cons_self o olds)
        · simp [hit]
    exact add_nonneg h2 h1

theorem restoreSum_ge {items : List Item} {olds : List ProductLine}
    (hq : ∀ o ∈ olds, 0 ≤ o.quantity) {op : ProductLine} (hm : op ∈ olds)
    {it : Item} (hres : resolveItem items op.productName = some it) :
    op.quantity ≤ restoreSum items olds it.id := by
  induction olds with
  | nil => cases hm
  | cons o olds ih =>
    simp only [restoreSum]
    have htail : ∀ o2 ∈ olds, 0 ≤ o2.quantity :=
      fun o2 ho2 => hq o2 (List.mem_cons_of_mem _ ho2)
    rcases List.mem_cons.mp hm with he | he
    · subst he
      rw [hres]
      have h1 := @restoreSum_nonneg items olds htail it.id
      simp only [if_pos rfl, eq_self_iff_true, if_true]
      omega
    · have h1 := ih htail he
      have h2 : (0 : Int) ≤
          match resolveItem items o.productName with
          | some it2 => if it2.id = it.id then o.quantity else 0
          | none => 0 := by
        cases resolveItem items o.productName with
        | none => exact le_refl 0
        | some it2 =>
          by_cases hit : it2.id = it.id
          · simpa [hit] using hq o (List.mem_cons_self o olds)
          · simp [hit]
      omega

/-- The PUT products branch round-trip engine: when the new lines carry
the same names and quantities as the old ones, the validate-and-check loop
over the restored stock succeeds, and the accumulated decrements equal,
id by id, the quantities restored. -/
theorem validateNew_pairs (items0 : List Item) (F : Nat → Int)
    (olds : List ProductLine) :
    ∀ nps : List InputLine,
      nps.map (fun p => (nameOf p, p.quantity)) =
        olds.map (fun op => (op.productName, op.quantity)) →
      (∀ op ∈ olds, op.productName ≠ "") →
      (∀ op ∈ olds, 0 < op.quantity) →
      (∀ op ∈ olds, ∃ it, resolveItem items0 op.productName = some it ∧
          op.quantity ≤ it.quantity + F it.id) →
      ∃ ups, validateNew (shiftQty F items0) nps = .ok ups ∧
        ∀ i, decSum ups i = restoreSum items0 olds i := by
  induction olds with
  | nil =>
    intro nps hpair _ _ _
    have hnil : nps = [] := List.map_eq_nil_iff.mp hpair
    subst hnil
    exact ⟨[], rfl, fun i => by simp [decSum, restoreSum]⟩
  | cons op olds ih =>
    intro nps hpair hn hq hck
    cases nps with
    | nil => simp at hpair
    | cons p nps =>
      simp only [List.map_cons, List.cons.injEq, Prod.mk.injEq] at hpair
      obtain ⟨⟨hname, hqty⟩, hpair2⟩ := hpair
      obtain ⟨it, hres, hle⟩ := hck op (List.mem_cons_self op olds)
      have hvalid : ¬(nameOf p = "" ∨ p.quantity ≤ 0) := by
        push_neg
        constructor
        · rw [hname]
          exact hn op (List.mem_cons_self op olds)
        · rw [hqty]
          exact hq op (List.mem_cons_self op olds)
      have hresolve : resolveItem (shiftQty F items0) (nameOf p) =
          some { it with quantity := it.quantity + F it.id } := by
        rw [hname, resolveItem_shiftQty, hres]
        rfl
      have hstock :
          ¬(({ it with quantity := it.quantity + F it.id } : Item).quantity <
            p.quantity) := by
        simp only [qtyUpdate_quantity]
        rw [hqty]
        omega
      obtain ⟨ups2, hok2, hsum2⟩ := ih nps hpair2
        (fun o2 ho2 => hn o2 (List.mem_cons_of_mem _ ho2))
        (fun o2 ho2 => hq o2 (List.mem_cons_of_mem _ ho2))
        (fun o2 ho2 => hck o2 (List.mem_cons_of_mem _ ho2))
      refine ⟨(it.id, p.quantity) :: ups2, ?_, ?_⟩
      · simp only [validateNew, if_neg hvalid, hresolve, if_neg hstock, hok2]
      · intro i
        simp only [decSum, restoreSum, hres, hsum2 i, hqty]

theorem deactivate_mem_active {incomes : List Income} {sid snum : Nat}
    {inc : Income} (h : inc ∈ incomes)
    (hl : incomeLinked inc sid snum = true) (ha : inc.isActive = true) :
    ({ inc with isActive := false } : Income) ∈
      deactivateIncomes incomes sid snum := by
  have h2 := List.mem_map_of_mem
    (fun inc => if incomeLinked inc sid snum && inc.isActive then
      ({ inc with isActive := false } : Income) else inc) h
  simpa [deactivateIncomes, hl, ha] using h2

theorem deactivate_mem_other {incomes : List Income} {sid snum : Nat}
    {inc : Income} (h : inc ∈ incomes)
    (hc : incomeLinked inc sid snum = false ∨ inc.isActive = false) :
    inc ∈ deactivateIncomes incomes sid snum := by
  have h2 := List.mem_map_of_mem
    (fun inc => if incomeLinked inc sid snum && inc.isActive then
      ({ inc with isActive := false } : Income) else inc) h
  rcases hc with hc | hc <;> simpa [deactivateIncomes, hc] using h2

theorem deactivate_linked_inactive {incomes : List Income} {sid snum : Nat}
    {inc2 : Income} (h : inc2 ∈ deactivateIncomes incomes sid snum)
    (hl : incomeLinked inc2 sid snum = true) : inc2.isActive = false := by
  obtain ⟨inc, hinc, he⟩ := List.mem_map.mp h
  by_cases hc : (incomeLinked inc sid snum && inc.isActive) = true
  · rw [if_pos hc] at he
    rw [← he]
  · rw [if_neg hc] at he
    subst he
    rcases Bool.and_eq_false_iff.mp (Bool.not_eq_true _ ▸ hc :
      (incomeLinked inc sid snum && inc.isActive) = false) with h1 | h1
    · rw [hl] at h1
      cases h1
    · exact h1

/-- C3: an edit that sets status Cancelled on a not-yet-cancelled slip
(with no products replacement in the same request) stamps `cancelledAt`,
deactivates — without deleting — every active income entry linked by
slipId or slipNumber, and increments each item's quantity by the total
quantity of the stored lines that resolve to it. -/
theorem C3_cancellation (db : DB) (sid : Nat) (req : EditReq) (ex : Slip)
    (hfind : db.slips.find? (fun s => s.id == sid) = some ex)
    (hca : ex.cancelledAt = false)
    (hst : req.status = some "Cancelled")
    (hnp : req.products = none) :
    ∃ db2 s2, editSlip db sid req = .ok (db2, s2) ∧
      s2.cancelledAt = true ∧
      s2.status = "Cancelled" ∧
      db2.items = shiftQty (restoreSum db.items ex.products) db.items ∧
      db2.incomes.length = db.incomes.length ∧
      (∀ inc ∈ db.incomes, incomeLinked inc ex.id ex.slipNumber = true →
        inc.isActive = true →
        ({ inc with isActive := false } : Income) ∈ db2.incomes) ∧
      (∀ inc ∈ db.incomes, incomeLinked inc ex.id ex.slipNumber = false ∨
        inc.isActive = false → inc ∈ db2.incomes) ∧
      (∀ inc2 ∈ db2.incomes, incomeLinked inc2 ex.id ex.slipNumber = true →
        inc2.isActive = false) := by
  have hok : editSlip db sid req = .ok
      ({ items := restoreOld db.items ex.products
         slips := db.slips.map (fun s => if s.id == sid then
           { ex with
             customerName := req.customerName.getD ex.customerName
             subtotal := req.subtotal.getD ex.subtotal
             totalAmount := req.totalAmount.getD ex.totalAmount
             status := "Cancelled"
             cancelledAt := true } else s)
         incomes := deactivateIncomes db.incomes ex.id ex.slipNumber },
       { ex with
         customerName := req.customerName.getD ex.customerName
         subtotal := req.subtotal.getD ex.subtotal
         totalAmount := req.totalAmount.getD ex.totalAmount
         status := "Cancelled"
         cancelledAt := true }) := by
    simp [editSlip, hfind, hnp, hst, hca]
  refine ⟨_, _, hok, rfl, rfl, restoreOld_eq db.items ex.products, ?_, ?_, ?_, ?_⟩
  · simp [deactivateIncomes]
  · intro inc hinc hl ha
    exact deactivate_mem_active hinc hl ha
  · intro inc hinc hc
    exact deactivate_mem_other hinc hc
  · intro inc2 hinc2 hl
    exact deactivate_linked_inactive hinc2 hl

/-- C4: editing an already-cancelled slip with status Cancelled again is a
no-op on inventory and income state: the `cancelledAt` guard skips both
the ledger restore and the income deactivation. -/
theorem C4_cancel_idempotent (db : DB) (sid : Nat) (req : EditReq) (ex : Slip)
    (hfind : db.slips.find? (fun s => s.id == sid) = some ex)
    (hca : ex.cancelledAt = true)
    (hst : req.status = some "Cancelled")
    (hnp : req.products = none) :
    ∃ db2 s2, editSlip db sid req = .ok (db2, s2) ∧
      db2.items = db.items ∧ db2.incomes = db.incomes := by
  have hok : editSlip db sid req = .ok
      ({ items := db.items
         slips := db.slips.map (fun s => if s.id == sid then
           { ex with
             customerName := req.customerName.getD ex.customerName
             subtotal := req.subtotal.getD ex.subtotal
             totalAmount := req.totalAmount.getD ex.totalAmount
             status := "Cancelled"
             cancelledAt := true } else s)
         incomes := db.incomes },
       { ex with
         customerName := req.customerName.getD ex.customerName
         subtotal := req.subtotal.getD ex.subtotal
         totalAmount := req.totalAmount.getD ex.totalAmount
         status := "Cancelled"
         cancelledAt := true }) := by
    simp [editSlip, hfind, hnp, hst, hca]
  exact ⟨_, _, hok, rfl, rfl⟩

theorem C3_witness :
    (editSlip wDb 5 wCancelReq).toOption.map
        (fun r => (r.1.items.map Item.quantity, r.2.cancelledAt, r.2.status)) =
      some ([12], true, "Cancelled") := by
  obtain ⟨db2, s2, hok, hc, hs, hi, _⟩ :=
    C3_cancellation wDb 5 wCancelReq wSlip rfl rfl rfl rfl
  rw [hok]
  simp only [Except.toOption, Option.map, hi, hc, hs]
  decide

theorem C4_witness :
    (editSlip wDb4 5 wCancelReq).toOption.map
        (fun r => (r.1.items.map Item.quantity, r.1.incomes.map Income.isActive)) =
      some ([12], [false, true]) := by
  obtain ⟨db2, s2, hok, hi, hinc⟩ :=
    C4_cancel_idempotent wDb4 5 wCancelReq
      { wSlip with status := "Cancelled", cancelledAt := true } rfl rfl rfl rfl
  rw [hok]
  simp only [Except.toOption, Option.map, hi, hinc]
  decide

/-- Unfolding lemma for the PUT products branch: when the slip is found,
products are supplied and the validate-and-check loop succeeds, the edit
succeeds, and the resulting items are the restored-then-decremented stock,
restored once more when the same request also performs a first-time
cancellation. -/
theorem editSlip_products_result {db : DB} {sid : Nat} {req : EditReq}
    {ex : Slip} {nps : List InputLine} {ups : List (Nat × Int)}
    (hfind : db.slips.find? (fun s => s.id == sid) = some ex)
    (hp : req.products = some nps)
    (hvn : validateNew (restoreOld db.items ex.products) nps = .ok ups) :
    ∃ db2 s2, editSlip db sid req = .ok (db2, s2) ∧
      db2.items = (if (req.status == some "Cancelled") && !ex.cancelledAt
        then restoreOld (applyDecrements (restoreOld db.items ex.products) ups)
          ex.products
        else applyDecrements (restoreOld db.items ex.products) ups) := by
  simp only [editSlip, hfind, hp, hvn]
  exact ⟨_, _, rfl, rfl⟩

/-- C5: an edit whose new products carry the same names and quantities as
the existing lines succeeds — the re-reservation cannot falsely fail,
because the full restore runs before the new stock checks — and leaves
every item's quantity unchanged. -/
theorem C5_edit_roundtrip (db : DB) (sid : Nat) (req : EditReq) (ex : Slip)
    (nps : List InputLine)
    (hfind : db.slips.find? (fun s => s.id == sid) = some ex)
    (hp : req.products = some nps)
    (hst : req.status = none)
    (hpair : nps.map (fun p => (nameOf p, p.quantity)) =
      ex.products.map (fun op => (op.productName, op.quantity)))
    (hres : ∀ op ∈ ex.products, ∃ it, resolveItem db.items op.productName = some it)
    (hn : ∀ op ∈ ex.products, op.productName ≠ "")
    (hq : ∀ op ∈ ex.products, 0 < op.quantity)
    (hpos : ∀ it ∈ db.items, 0 ≤ it.quantity) :
    ∃ db2 s2, editSlip db sid req = .ok (db2, s2) ∧ db2.items = db.items := by
  have hq0 : ∀ op ∈ ex.products, 0 ≤ op.quantity :=
    fun op h => le_of_lt (hq op h)
  have hck : ∀ op ∈ ex.products, ∃ it,
      resolveItem db.items op.productName = some it ∧
      op.quantity ≤ it.quantity + restoreSum db.items ex.products it.id := by
    intro op hop
    obtain ⟨it, hit⟩ := hres op hop
    refine ⟨it, hit, ?_⟩
    have h1 := restoreSum_ge hq0 hop hit
    have h2 := hpos it (resolveItem_mem hit).1
    omega
  obtain ⟨ups, hvn, hsum⟩ := validateNew_pairs db.items
    (restoreSum db.items ex.products) ex.products nps hpair hn hq hck
  have hvn2 : validateNew (restoreOld db.items ex.products) nps = .ok ups := by
    rw [restoreOld_eq]
    exact hvn
  obtain ⟨db2, s2, hok, hitems⟩ := editSlip_products_result hfind hp hvn2
  refine ⟨db2, s2, hok, ?_⟩
  rw [hitems, hst]
  simp only [none_beq_some_str, Bool.false_and, Bool.false_eq_true, if_false]
  rw [restoreOld_eq, applyDecrements_shiftQty]
  have h0 : shiftQty (fun i => restoreSum db.items ex.products i - decSum ups i)
      db.items = shiftQty (fun _ => 0) db.items :=
    shiftQty_congr (fun i => by rw [hsum i]; ring) db.items
  rw [h0, shiftQty_zero]

theorem C5_witness :
    (editSlip wDb 5 c5req).toOption.map (fun r => r.1.items.map Item.quantity) =
      some [10] := by
  obtain ⟨db2, s2, hok, hitems⟩ := C5_edit_roundtrip wDb 5 c5req wSlip [c5newline]
    rfl rfl rfl (by decide)
    (by
      intro op hop
      simp only [wDb, wSlip, List.mem_singleton] at hop
      subst hop
      exact ⟨wItem, rfl⟩)
    (by decide) (by decide) (by decide)
  rw [hok]
  simp only [Except.toOption, Option.map, hitems]
  decide

/-- C9 counterexample to the claim's arithmetic: starting from stock 10
with an old line of 2 and a new line of 1, the combined
products-plus-cancel edit ends at 10 + 2 − 1 + 2 = 13, while a pure
cancellation ends at 12; the claim's "inflated by the original line
quantities relative to a pure cancellation" would demand 12 + 2 = 14. -/
theorem C9_counterexample :
    (editSlip wDb 5 c9reqBoth).toOption.map
        (fun r => r.1.items.map Item.quantity) = some [13] ∧
    (editSlip wDb 5 wCancelReq).toOption.map
        (fun r => r.1.items.map Item.quantity) = some [12] ∧
    (13 : Int) ≠ 12 + 2 := by
  refine ⟨?_, ?_, ?_⟩
  · decide
  · decide
  · decide

/-- C9 as amended: when one edit both supplies products and performs a
first-time cancellation, the original lines are restored twice — once by
the products branch and once by the cancellation branch — while the new
lines are reserved once, so each item ends at its start plus twice the
restored total of old lines resolving to it minus the reserved total of
new lines resolving to it; relative to a pure cancellation the quantities
are inflated by the original minus the new line totals. -/
theorem C9_double_restore (db : DB) (sid : Nat) (req : EditReq) (ex : Slip)
    (nps : List InputLine) (db2 : DB) (s2 : Slip)
    (hfind : db.slips.find? (fun s => s.id == sid) = some ex)
    (hca : ex.cancelledAt = false)
    (hp : req.products = some nps)
    (hst : req.status = some "Cancelled")
    (hok : editSlip db sid req = .ok (db2, s2)) :
    ∃ ups, validateNew (restoreOld db.items ex.products) nps = .ok ups ∧
      db2.items = shiftQty
        (fun i => 2 * restoreSum db.items ex.products i - decSum ups i)
        db.items := by
  rcases hvn : validateNew (restoreOld db.items ex.products) nps with e | ups
  · rw [editSlip] at hok
    rw [hfind] at hok
    simp only [hp, hvn] at hok
    cases hok
  · obtain ⟨db3, s3, hok2, hitems⟩ := editSlip_products_result hfind hp hvn
    rw [hok2] at hok
    injection hok with hok
    have hdb : db3 = db2 := congrArg Prod.fst hok
    subst hdb
    refine ⟨ups, rfl, ?_⟩
    rw [hst, hca] at hitems
    simp only [beq_self_eq_true, Bool.not_false, Bool.and_true, if_true] at hitems
    rw [restoreOld_eq db.items, applyDecrements_shiftQty, restoreOld_shiftQty]
      at hitems
    rw [hitems]
    exact shiftQty_congr (fun i => by ring) db.items

theorem C9_witness :
    (editSlip wDb 5 c9reqBoth).toOption.map
        (fun r => r.1.items.map Item.quantity) =
      (some ((shiftQty
        (fun i => 2 * restoreSum wDb.items wSlip.products i - decSum [(1, 1)] i)
        wDb.items).map Item.quantity)) := by
  rcases hed : editSlip wDb 5 c9reqBoth with e | r
  · have h0 : (editSlip wDb 5 c9reqBoth).toOption.isSome = true := by decide
    rw [hed] at h0
    cases h0
  · obtain ⟨ups, hvn, hitems⟩ :=
      C9_double_restore wDb 5 c9reqBoth wSlip [c9newline] r.1 r.2 rfl rfl rfl rfl
        (by rw [hed])
    have hups : ups = [(1, 1)] := by
      have h2 : validateNew (restoreOld wDb.items wSlip.products) [c9newline] =
          .ok [(1, 1)] := rfl
      rw [h2] at hvn
      injection hvn with hvn
      exact hvn.symm
    simp only [Except.toOption, Option.map, hitems, hups]

/-- C10: the DELETE endpoint hard-deletes the slip — whatever its status —
and touches nothing else: item quantities and income entries (linked or
not) are exactly as before, with no ledger restoration and no income
deactivation. -/
theorem C10_delete_frame (db : DB) (sid : Nat) (db2 : DB) (s : Slip)
    (h : deleteSlip db sid = some (db2, s)) :
    db2.items = db.items ∧ db2.incomes = db.incomes ∧
    s ∈ db.slips ∧ (s.id == sid) = true ∧
    (∀ t ∈ db.slips, (t.id == sid) = false → t ∈ db2.slips) ∧
    (∀ t ∈ db2.slips, t ∈ db.slips ∧ (t.id == sid) = false) := by
  simp only [deleteSlip] at h
  split at h
  · cases h
  next s0 hfind =>
    injection h with h
    have hdb : db2 = { db with slips := db.slips.filter (fun t => !(t.id == sid)) } :=
      (congrArg Prod.fst h).symm
    have hs : s = s0 := (congrArg Prod.snd h).symm
    subst hdb
    subst hs
    have hps : (s.id == sid) = true := by
      have h4 := List.find?_some hfind
      exact h4
    refine ⟨rfl, rfl, List.mem_of_find?_eq_some hfind, hps, ?_, ?_⟩
    · intro t ht hne
      exact List.mem_filter.mpr ⟨ht, by rw [hne]; rfl⟩
    · intro t ht
      have h2 := List.mem_filter.mp ht
      refine ⟨h2.1, ?_⟩
      cases hb : (t.id == sid)
      · rfl
      · have h3 := h2.2
        rw [hb] at h3
        cases h3

theorem C10_witness :
    (deleteSlip c10db 5).map
        (fun r => (r.1.items.map Item.quantity,
          r.1.incomes.map Income.isActive, r.1.slips.length)) =
      some ([10], [true, true], 0) := by
  rcases hdel : deleteSlip c10db 5 with _ | r
  · exact absurd hdel (by decide)
  · have h := C10_delete_frame c10db 5 r.1 r.2 (by rw [hdel])
    simp only [Option.map, h.1, h.2.1]
    have hlen : r.1.slips.length = 0 := by
      cases hsl : r.1.slips with
      | nil => rfl
      | cons t ts =>
        have h2 := (h.2.2.2.2.2 t (by rw [hsl]; exact List.mem_cons_self t ts))
        have h3 : t ∈ c10db.slips := h2.1
        simp only [c10db, c10slip, wSlip, List.mem_singleton] at h3
        subst h3
        cases h2.2
    simp only [hlen]
    decide

end InventorySystem
